import Mathlib

/-!
Shallow embedding of `TemplateFactory.js` (phish108/TemplateFactory).

The implementation is a browser-side templating helper.  We embed the parts
the verified claims are about:

* `flattenObjectId` — the identifier sanitizer (a regex replace deleting a
  fixed set of characters);
* `ComponentBlock` — the template/component state (`prefixid`, `bTemplate`,
  `currentElementId`, `targetid`, `variables`, the target-element slot set by
  `setTargetElement`, and the plain `_targetElement` property written by
  `appendTo`), together with `find`, `calculateObjectID`, `appendTo`,
  `attach` and the ids assigned by `initRootElements` / `initVariables`;
* `ComponentVar` — the boolean-class configuration and `hasClass` / `which`;
* `TemplateFactory` — construction of the template index and
  `getTargetTemplate`.

The live document is modelled by the data the code actually queries: the
list of element ids present in the document (`find` and instantiation only
inspect ids through the suffix selector `[id$=...]`), and, for the class
operations of `ComponentVar`, the class list of the resolved element.
Stateful methods take and return this explicit state.  DOM nodes are
abstracted to a node type together with an identity tag; `Node.ELEMENT_NODE`
is the numeric constant 1.
-/

/-- Character class of the JavaScript regex escape `\s` (whitespace).  The
ASCII/Latin-1 whitespace characters are listed; `\s` additionally matches
rarer Unicode space characters, which play no role in any claim. -/
def isJsWhitespaceChar (c : Char) : Bool :=
  c = ' ' || c = '\t' || c = '\n' || c = '\r' || c = '\x0b' || c = '\x0c' || c = '\xa0'

/-- The character denylist of `flattenObjectId` (TemplateFactory.js:158):
the regex `[\!\"\'\#\$\^\<\>\=\?\*\.\/\\\]\[\{\}\`\~\%\&\-\(\)\+\s\,\:\;\@\|]`.
The escapes `\x22 \x27 \x5c \x7b \x7d \x60` are the characters
double-quote, apostrophe, backslash, open brace, close brace, backtick. -/
def flattenForbiddenChar (c : Char) : Bool :=
  c = '!' || c = '\x22' || c = '\x27' || c = '#' || c = '$' || c = '^' ||
  c = '<' || c = '>' || c = '=' || c = '?' || c = '*' || c = '.' ||
  c = '/' || c = '\x5c' || c = ']' || c = '[' || c = '\x7b' || c = '\x7d' ||
  c = '\x60' || c = '~' || c = '%' || c = '&' || c = '-' || c = '(' ||
  c = ')' || c = '+' || c = ',' || c = ':' || c = ';' || c = '@' ||
  c = '|' || isJsWhitespaceChar c

/-- Deleting every denylisted character from a character list.  The source
replaces each maximal run of denylisted characters by the empty string,
which deletes exactly the denylisted characters. -/
def flattenList : List Char → List Char
  | [] => []
  | c :: cs => if flattenForbiddenChar c then flattenList cs else c :: flattenList cs

/-- Function `flattenObjectId` (TemplateFactory.js:155-160): remove the forbidden
selector characters from an object id. -/
def flattenObjectId (s : String) : String := ⟨flattenList s.data⟩

/-- The suffix test performed by the CSS attribute selector `[id$=p]`:
the element id `s` ends with `p`.  (For the empty suffix every id matches;
in a browser the selector `[id$=]` would be a syntax error, but the code
only builds it with the nonempty prefix of a template block.) -/
def strEndsWith (p s : String) : Bool := p.data.isSuffixOf s.data

/-- Decimal digit character, as produced by JavaScript number-to-string
coercion of `i` in `cI + i`. -/
def decDigitChar (d : Nat) : Char := Char.ofNat (48 + d)

/-- Fuel-driven construction of the decimal numeral of `n` (least
significant digit first into the accumulator).  Fuel `n + 1` always covers
the number of digits of `n`. -/
def natStrAux : Nat → Nat → List Char → List Char
  | 0, _, acc => acc
  | fuel + 1, n, acc =>
    let acc' := decDigitChar (n % 10) :: acc
    if n < 10 then acc' else natStrAux fuel (n / 10) acc'

/-- The decimal numeral of `n`, as JavaScript's `'' + n` produces for a
natural number. -/
def natStr (n : Nat) : String := ⟨natStrAux (n + 1) n []⟩

/-- Sanitization applied to a declared tag id by the factory constructor
(TemplateFactory.js:33): `id.replace(/[\s_\-]+/g, '')` — whitespace,
underscores and hyphens removed.  This is the key of the template index. -/
def factoryIdKey (s : String) : String :=
  ⟨s.data.filter (fun c => !(isJsWhitespaceChar c || c = '_' || c = '-'))⟩

/-- Sanitization applied by the `ComponentBlock` constructor
(TemplateFactory.js:42): `tag.id.replace(/[\s\-]+/g, '')` — whitespace and
hyphens removed, underscores kept.  This becomes `prefixid`, the block's
`name`. -/
def blockIdName (s : String) : String :=
  ⟨s.data.filter (fun c => !(isJsWhitespaceChar c || c = '-'))⟩

/-- Constant `Node.ELEMENT_NODE`. -/
def elementNodeType : Nat := 1

/-- An abstract DOM node: its `nodeType` and an identity tag distinguishing
distinct nodes. -/
structure DomNode where
  nodeType : Nat
  tag : Nat
deriving DecidableEq, Repr

/-- The data of a `template`/`component` tag that the `ComponentBlock`
constructor consumes: its declared id, its tag name, the id and node of its
parent, the ids of the elements carrying an id inside its fragment
(`variables`, in document order), and the number of root-level element
children of the fragment that carry no id (the elements `initRootElements`
assigns positional ids to). -/
structure TagDesc where
  id : String
  nodeName : String
  parentId : String
  parentNode : DomNode
  varIds : List String
  rootAnon : Nat
deriving DecidableEq, Repr

/-- The state of a `ComponentBlock` (TemplateFactory.js:39-97).
`targetElement` is the closure variable read by `getTargetElement` (hence by
the `target` getter); `_targetElement` is the distinct plain property that
`appendTo` assigns (TemplateFactory.js:173). -/
structure ComponentBlock where
  prefixid : String
  bTemplate : Bool
  currentElementId : String
  targetid : String
  varNames : List String
  rootAnon : Nat
  targetElement : Option DomNode
  _targetElement : Option DomNode
deriving DecidableEq, Repr

/-- The `ComponentBlock` constructor: `prefixid` is the tag id with
whitespace and hyphens removed, `bTemplate` holds for `template` tags,
`currentElementId` starts empty, `targetid` is the parent's id (possibly
empty), and the target element is set to the parent node when `targetid` is
nonempty (via `setTargetElement`, which requires an element node). -/
def ComponentBlock.ofTag (t : TagDesc) : ComponentBlock where
  prefixid := blockIdName t.id
  bTemplate := t.nodeName = "template"
  currentElementId := ""
  targetid := t.parentId
  varNames := t.varIds
  rootAnon := t.rootAnon
  targetElement :=
    if t.parentId ≠ "" ∧ t.parentNode.nodeType = elementNodeType then some t.parentNode
    else none
  _targetElement := none

/-- Method `setTargetElement` (TemplateFactory.js:47-50): store the node only when
it is an element node. -/
def ComponentBlock.setTargetElement (b : ComponentBlock) (node : Option DomNode) :
    ComponentBlock :=
  match node with
  | some n => if n.nodeType = elementNodeType then { b with targetElement := some n } else b
  | none => b

/-- The `target` getter (TemplateFactory.js:117-120): returns
`getTargetElement()`, i.e. the closure variable `targetElement`. -/
def ComponentBlock.target (b : ComponentBlock) : Option DomNode := b.targetElement

/-- The value `prototype.prefix` would return if `currentElementId` were
`cur` (the method name `prefix` itself is not usable here):
`'_' + prefixid + '_' + currentElementId` for templates, `''` otherwise. -/
def ComponentBlock.prefixFor (b : ComponentBlock) (cur : String) : String :=
  if b.bTemplate then "_" ++ b.prefixid ++ "_" ++ cur else ""

/-- Method `prototype.prefix` (TemplateFactory.js:142-147). -/
def ComponentBlock.prefixStr (b : ComponentBlock) : String :=
  b.prefixFor b.currentElementId

/-- Method `prototype.find` (TemplateFactory.js:205-218) over the document's id
list.  The query runs only when `objectid` and `variables` are both
non-empty; on a hit the probed (sanitized) id stays current, on a miss the
previous `currentElementId` is restored. -/
def ComponentBlock.find (b : ComponentBlock) (doc : List String) (objectid : String) :
    Bool × ComponentBlock :=
  if objectid ≠ "" ∧ b.varNames ≠ [] then
    if doc.any (fun s =>
        strEndsWith
          (ComponentBlock.prefixStr { b with currentElementId := flattenObjectId objectid })
          s) then
      (true, { b with currentElementId := flattenObjectId objectid })
    else (false, b)
  else (false, b)

/-- The boolean result of `find` alone.  `find`'s temporary state changes
never alter the fields the query depends on (`bTemplate`, `prefixid`,
`variables`), so inside loops the boolean can be taken on the original
block. -/
def ComponentBlock.findTest (b : ComponentBlock) (doc : List String) (objectid : String) :
    Bool :=
  (b.find doc objectid).1

/-- The loop `for (i; this.find(cI + i); i++);` of `calculateObjectID`,
with explicit fuel: try `cI + i`, `cI + (i+1)`, … until `find` misses.
The JavaScript loop terminates on every finite document (ids matching the
suffixes for distinct appended numerals are distinct, so at most
`doc.length` probes can hit); fuel `doc.length + 1` therefore covers every
run that the source performs. -/
def ComponentBlock.searchFreeId (b : ComponentBlock) (doc : List String) (cI : String) :
    Nat → Nat → Option String
  | 0, _ => none
  | fuel + 1, i =>
    if b.findTest doc (cI ++ natStr i) then b.searchFreeId doc cI fuel (i + 1)
    else some (cI ++ natStr i)

/-- Method `prototype.calculateObjectID` (TemplateFactory.js:177-184): when the
current id is empty or already found, adopt `cI + i` for the first `i` whose
`find` misses.  (The intermediate `find` calls inside the condition and the
loop mutate `currentElementId`, but the final assignment overwrites it, so
only the adopted value is observable.)  `none` only signals fuel
exhaustion, which no source-reachable state produces. -/
def ComponentBlock.calculateObjectID (b : ComponentBlock) (doc : List String) :
    Option ComponentBlock :=
  if b.currentElementId = "" ∨ b.findTest doc b.currentElementId then
    match b.searchFreeId doc b.currentElementId (doc.length + 1) 0 with
    | some s => some { b with currentElementId := s }
    | none => none
  else some b

/-- The positional ids `initRootElements` (TemplateFactory.js:186-196)
assigns: `j + prefix` for the `j`-th root-level element child without an
id. -/
def ComponentBlock.initRootElementIds (b : ComponentBlock) : List String :=
  (List.range b.rootAnon).map (fun j => natStr j ++ b.prefixStr)

/-- The variable ids `initVariables` (TemplateFactory.js:198-203) assigns:
`v + prefix` for each declared variable id `v`. -/
def ComponentBlock.initVariableIds (b : ComponentBlock) : List String :=
  b.varNames.map (fun v => v ++ b.prefixStr)

/-- All element ids a fresh instance carries (the clone's only ids are the
ones `initRootElements` and `initVariables` assign). -/
def ComponentBlock.instanceIds (b : ComponentBlock) : List String :=
  b.initRootElementIds ++ b.initVariableIds

/-- Method `prototype.appendTo` (TemplateFactory.js:162-175) over the document's id
list: guarded by `bTemplate` and a valid element node; sanitizes the object
id, runs `calculateObjectID`, appends the freshly id-rewritten clone (its
ids join the document), and writes the plain `_targetElement` property —
not the `targetElement` slot behind the `target` getter.  An absent or
non-element node makes the call a no-op. -/
def ComponentBlock.appendTo :
    ComponentBlock → List String → Option DomNode → String →
      Option (ComponentBlock × List String)
  | b, doc, some n, objectid =>
    if b.bTemplate = true ∧ n.nodeType = elementNodeType then
      (ComponentBlock.calculateObjectID
          { b with currentElementId := flattenObjectId objectid } doc).map
        (fun b2 => ({ b2 with _targetElement := some n }, doc ++ b2.instanceIds))
    else some (b, doc)
  | b, doc, none, _ => some (b, doc)

/-- Method `prototype.attach` (TemplateFactory.js:149-153): for templates, delegate
to `appendTo` with `document.getElementById(this.targetid)` (passed here as
`targetNode`); for components, do nothing. -/
def ComponentBlock.attach (b : ComponentBlock) (doc : List String)
    (targetNode : Option DomNode) (objectid : String) :
    Option (ComponentBlock × List String) :=
  if b.bTemplate then b.appendTo doc targetNode objectid else some (b, doc)

/-- The boolean-class configuration of a `ComponentVar`
(TemplateFactory.js:225-235): the `data-trueclass` / `data-falseclass`
values, either of which may be absent. -/
structure BoolClass where
  tcls : Option String
  fcls : Option String
deriving DecidableEq, Repr

/-- A `ComponentVar`: its declared id and, when at least one of the two
data attributes is a nonempty string, the boolean-class configuration.
(The back reference to the owning block and the lazy DOM resolution are not
needed by the claims; the class operations below receive the resolved
element's class list directly.) -/
structure ComponentVar where
  id : String
  boolClass : Option BoolClass
deriving DecidableEq, Repr

/-- Method `prototype.hasClass` (TemplateFactory.js:367-382) on the resolved
element's class list.  A string argument is split on single spaces and
every resulting name must be present.  An absent (`undefined`) argument
yields neither a string nor an array, so the `for..in` loop body never runs
and the method returns `true`. -/
def ComponentVar.hasClass (classname : Option String) (classList : List String) : Bool :=
  match classname with
  | none => true
  | some s => (s.splitOn " ").all (fun c => classList.contains c)

/-- Method `prototype.which` (TemplateFactory.js:433-435):
`boolClass && (hasClass(boolClass.true) || !hasClass(boolClass.false))`;
without a configuration the conjunction short-circuits to a falsy value
(and never resolves the element). -/
def ComponentVar.which (v : ComponentVar) (classList : List String) : Bool :=
  match v.boolClass with
  | none => false
  | some bc =>
    ComponentVar.hasClass bc.tcls classList || !ComponentVar.hasClass bc.fcls classList

/-- The factory state: the template index, an insertion-ordered list of
(key, block) bindings with unique keys. -/
structure TemplateFactory where
  templates : List (String × ComponentBlock)
deriving DecidableEq, Repr

/-- Assignment `this.templates[id] = block` on a JavaScript object: an
existing key keeps its position and gets the new value, a new key is
appended. -/
def insertTemplate (l : List (String × ComponentBlock)) (k : String) (b : ComponentBlock) :
    List (String × ComponentBlock) :=
  if l.any (fun kv => kv.1 = k) then
    l.map (fun kv => if kv.1 = k then (k, b) else kv)
  else l ++ [(k, b)]

/-- The `TemplateFactory` constructor (TemplateFactory.js:27-37): for each
discovered tag in document order, index a new `ComponentBlock` under the
declared id stripped of whitespace, underscores and hyphens, skipping empty
keys. -/
def TemplateFactory.ofTags (tags : List TagDesc) : TemplateFactory :=
  ⟨tags.foldl
    (fun acc t =>
      let k := factoryIdKey t.id
      if k ≠ "" then insertTemplate acc k (ComponentBlock.ofTag t) else acc)
    []⟩

/-- Method `getTemplate` (TemplateFactory.js:445-447). -/
def TemplateFactory.getTemplate (f : TemplateFactory) (name : String) :
    Option ComponentBlock :=
  (f.templates.find? (fun kv => kv.1 = name)).map (fun kv => kv.2)

/-- The three result shapes of `getTargetTemplate`: `undefined`, a single
block, or the object mapping index keys to blocks. -/
inductive GetTargetResult where
  | notFound : GetTargetResult
  | one : ComponentBlock → GetTargetResult
  | many : List (String × ComponentBlock) → GetTargetResult
deriving DecidableEq, Repr

/-- Method `getTargetTemplate` (TemplateFactory.js:455-466): collect the bindings
whose block's `targetid` equals the argument; return the object when more
than one matches, the single block when exactly one matches, `undefined`
otherwise. -/
def TemplateFactory.getTargetTemplate (f : TemplateFactory) (targetid : String) :
    GetTargetResult :=
  match f.templates.filter (fun kv => kv.2.targetid = targetid) with
  | [] => GetTargetResult.notFound
  | [kv] => GetTargetResult.one kv.2
  | kv :: kv' :: rest => GetTargetResult.many (kv :: kv' :: rest)

/-! ### Helper lemmas about the string functions -/

theorem flattenList_eq_filter (l : List Char) :
    flattenList l = l.filter (fun c => !flattenForbiddenChar c) := by
  induction l with
  | nil => rfl
  | cons c cs ih =>
    by_cases h : flattenForbiddenChar c <;>
      simp [flattenList, h, ih, List.filter_cons]

theorem flattenObjectId_data (s : String) :
    (flattenObjectId s).data = s.data.filter (fun c => !flattenForbiddenChar c) := by
  simp [flattenObjectId, flattenList_eq_filter]

theorem flattenObjectId_idem (s : String) :
    flattenObjectId (flattenObjectId s) = flattenObjectId s := by
  apply String.ext
  simp [flattenObjectId_data, List.filter_filter]

theorem flattenObjectId_append (a b : String) :
    flattenObjectId (a ++ b) = flattenObjectId a ++ flattenObjectId b := by
  apply String.ext
  simp [flattenObjectId_data, String.data_append, List.filter_append]

theorem decDigitChar_not_forbidden : ∀ d : Nat, d < 10 → flattenForbiddenChar (decDigitChar d) = false := by
  decide

theorem natStrAux_not_forbidden (fuel : Nat) :
    ∀ (n : Nat) (acc : List Char), (∀ c ∈ acc, flattenForbiddenChar c = false) →
      ∀ c ∈ natStrAux fuel n acc, flattenForbiddenChar c = false := by
  induction fuel with
  | zero => intro n acc hacc c hc; exact hacc c hc
  | succ fuel ih =>
    intro n acc hacc c hc
    have hdig : flattenForbiddenChar (decDigitChar (n % 10)) = false :=
      decDigitChar_not_forbidden _ (Nat.mod_lt _ (by omega))
    have hacc' : ∀ c' ∈ decDigitChar (n % 10) :: acc, flattenForbiddenChar c' = false := by
      intro c' hc'
      rcases List.mem_cons.mp hc' with h' | h'
      · rw [h']; exact hdig
      · exact hacc c' h'
    unfold natStrAux at hc
    split at hc
    · exact hacc' c hc
    · exact ih (n / 10) _ hacc' c hc

theorem flattenObjectId_natStr (n : Nat) : flattenObjectId (natStr n) = natStr n := by
  apply String.ext
  rw [flattenObjectId_data]
  apply List.filter_eq_self.mpr
  intro c hc
  simp [natStrAux_not_forbidden (n + 1) n [] (by simp) c hc]

theorem natStrAux_decompose (fuel : Nat) :
    ∀ (n : Nat) (acc : List Char), ∃ l, natStrAux fuel n acc = l ++ acc ∧ (0 < fuel → l ≠ []) := by
  induction fuel with
  | zero => intro n acc; exact ⟨[], rfl, by omega⟩
  | succ fuel ih =>
    intro n acc
    unfold natStrAux
    split
    · exact ⟨[decDigitChar (n % 10)], rfl, fun _ => by simp⟩
    · obtain ⟨l, hl, _⟩ := ih (n / 10) (decDigitChar (n % 10) :: acc)
      exact ⟨l ++ [decDigitChar (n % 10)], by simp [hl], fun _ => by simp⟩

theorem natStr_ne_empty (n : Nat) : natStr n ≠ "" := by
  obtain ⟨l, hl, hne⟩ := natStrAux_decompose (n + 1) n []
  intro h
  have : (natStr n).data = [] := by simp [h]
  rw [natStr] at this
  simp only at this
  rw [hl] at this
  simp at this
  exact hne (by omega) this

theorem append_natStr_ne_empty (a : String) (j : Nat) : a ++ natStr j ≠ "" := by
  intro h
  have hd : (a ++ natStr j).data = [] := by simp [h]
  rw [String.data_append] at hd
  have : (natStr j).data = [] := by
    cases List.append_eq_nil.mp hd with
    | intro h1 h2 => exact h2
  exact natStr_ne_empty j (by cases hnj : natStr j with | _ d => simp_all [String.ext_iff])

theorem strEndsWith_append (p y : String) : strEndsWith p (y ++ p) = true := by
  simp [strEndsWith, List.isSuffixOf_iff_suffix, String.data_append]

theorem strEndsWith_last_ne (p s : String) (c d : Char) (hcd : c ≠ d)
    (hp : p.data.getLast? = some c) (hs : s.data.getLast? = some d) :
    strEndsWith p s = false := by
  by_contra h
  have h' : strEndsWith p s = true := by
    cases hb : strEndsWith p s with
    | false => exact absurd hb h
    | true => rfl
  rw [strEndsWith, List.isSuffixOf_iff_suffix] at h'
  obtain ⟨t, ht⟩ := h'
  have := congrArg List.getLast? ht
  rw [List.getLast?_append, hp, hs] at this
  simp [Option.or] at this
  exact hcd this


/-! ### Helper lemmas about `find`, `calculateObjectID` and `appendTo` -/

theorem find_cases (b : ComponentBlock) (doc : List String) (o : String) :
    b.find doc o = (false, b) ∨
    (b.find doc o = (true, { b with currentElementId := flattenObjectId o }) ∧
      o ≠ "" ∧ b.varNames ≠ [] ∧
      doc.any (fun s =>
        strEndsWith
          (ComponentBlock.prefixStr { b with currentElementId := flattenObjectId o })
          s) = true) := by
  unfold ComponentBlock.find
  split
  next hcond =>
    split
    next hany => exact Or.inr ⟨rfl, hcond.1, hcond.2, hany⟩
    next => exact Or.inl rfl
  next => exact Or.inl rfl

theorem findTest_congr (b b' : ComponentBlock) (doc : List String) (o : String)
    (h1 : b'.bTemplate = b.bTemplate) (h2 : b'.prefixid = b.prefixid)
    (h3 : b'.varNames = b.varNames) :
    b'.findTest doc o = b.findTest doc o := by
  unfold ComponentBlock.findTest ComponentBlock.find
  simp only [ComponentBlock.prefixStr, ComponentBlock.prefixFor, h1, h2, h3]
  split
  · split <;> split <;> rfl
  · rfl

theorem findTest_eq_true_iff (b : ComponentBlock) (doc : List String) (o : String) :
    b.findTest doc o = true ↔
      o ≠ "" ∧ b.varNames ≠ [] ∧
      ∃ s ∈ doc, strEndsWith (b.prefixFor (flattenObjectId o)) s = true := by
  unfold ComponentBlock.findTest ComponentBlock.find
  split
  next hcond =>
    split
    next hany =>
      simp only [true_iff]
      refine ⟨hcond.1, hcond.2, ?_⟩
      rcases List.any_eq_true.mp hany with ⟨s, hs, hends⟩
      exact ⟨s, hs, by simpa [ComponentBlock.prefixStr, ComponentBlock.prefixFor] using hends⟩
    next hany =>
      constructor
      · intro h; cases h
      · rintro ⟨-, -, s, hs, hends⟩
        exact absurd (List.any_eq_true.mpr ⟨s, hs, by
          simpa [ComponentBlock.prefixStr, ComponentBlock.prefixFor] using hends⟩) hany
  next hcond =>
    constructor
    · intro h; cases h
    · rintro ⟨h1, h2, -⟩
      exact absurd ⟨h1, h2⟩ hcond

theorem findTest_false_not_endsWith (b : ComponentBlock) (doc : List String) (o : String)
    (h : b.findTest doc o = false) (ho : o ≠ "") (hv : b.varNames ≠ []) :
    ∀ s ∈ doc, strEndsWith (b.prefixFor (flattenObjectId o)) s = false := by
  intro s hs
  cases hE : strEndsWith (b.prefixFor (flattenObjectId o)) s with
  | false => rfl
  | true =>
    have : b.findTest doc o = true := (findTest_eq_true_iff b doc o).mpr ⟨ho, hv, s, hs, hE⟩
    rw [h] at this
    cases this

theorem searchFreeId_some (b : ComponentBlock) (doc : List String) (cI : String) :
    ∀ (fuel i : Nat) (s : String), b.searchFreeId doc cI fuel i = some s →
      b.findTest doc s = false ∧
      ∃ j, i ≤ j ∧ s = cI ++ natStr j ∧
        ∀ k, i ≤ k → k < j → b.findTest doc (cI ++ natStr k) = true := by
  intro fuel
  induction fuel with
  | zero => intro i s h; simp [ComponentBlock.searchFreeId] at h
  | succ fuel ih =>
    intro i s h
    unfold ComponentBlock.searchFreeId at h
    split at h
    next hfound =>
      obtain ⟨hfind, j, hij, hs, hall⟩ := ih (i + 1) s h
      refine ⟨hfind, j, by omega, hs, ?_⟩
      intro k hik hkj
      rcases Nat.eq_or_lt_of_le hik with heq | hlt
      · rw [← heq]; exact hfound
      · exact hall k (by omega) hkj
    next hfound =>
      cases h
      refine ⟨by simpa using hfound, i, Nat.le_refl i, rfl, ?_⟩
      intro k hik hki
      omega

theorem calculateObjectID_some (b b' : ComponentBlock) (doc : List String)
    (h : b.calculateObjectID doc = some b') :
    b'.prefixid = b.prefixid ∧ b'.bTemplate = b.bTemplate ∧ b'.varNames = b.varNames ∧
    b'.rootAnon = b.rootAnon ∧ b'.targetid = b.targetid ∧
    b'.targetElement = b.targetElement ∧ b'._targetElement = b._targetElement ∧
    b'.currentElementId ≠ "" ∧
    b.findTest doc b'.currentElementId = false ∧
    (b'.currentElementId = b.currentElementId ∨
      ∃ j, b'.currentElementId = b.currentElementId ++ natStr j) := by
  unfold ComponentBlock.calculateObjectID at h
  split at h
  next hcond =>
    cases hsearch : b.searchFreeId doc b.currentElementId (doc.length + 1) 0 with
    | none =>
      rw [hsearch] at h
      exact Option.noConfusion h
    | some s =>
      rw [hsearch] at h
      simp only [Option.some.injEq] at h
      subst h
      obtain ⟨hfind, j, -, hs, -⟩ := searchFreeId_some b doc b.currentElementId _ _ _ hsearch
      subst hs
      exact ⟨rfl, rfl, rfl, rfl, rfl, rfl, rfl, append_natStr_ne_empty _ j, hfind,
        Or.inr ⟨j, rfl⟩⟩
  next hcond =>
    simp only [Option.some.injEq] at h
    subst h
    push_neg at hcond
    cases hft : b.findTest doc b.currentElementId with
    | true => exact absurd hft hcond.2
    | false => exact ⟨rfl, rfl, rfl, rfl, rfl, rfl, rfl, hcond.1, rfl, Or.inl rfl⟩

theorem appendTo_some_guard (b b' : ComponentBlock) (doc doc' : List String) (n : DomNode)
    (o : String) (hb : b.bTemplate = true) (hn : n.nodeType = elementNodeType)
    (h : b.appendTo doc (some n) o = some (b', doc')) :
    ∃ b2, ComponentBlock.calculateObjectID
        { b with currentElementId := flattenObjectId o } doc = some b2 ∧
      b' = { b2 with _targetElement := some n } ∧ doc' = doc ++ b2.instanceIds := by
  simp only [ComponentBlock.appendTo] at h
  rw [if_pos ⟨hb, hn⟩] at h
  cases hc : ComponentBlock.calculateObjectID
      { b with currentElementId := flattenObjectId o } doc with
  | none => rw [hc] at h; simp at h
  | some b2 =>
    rw [hc] at h
    simp only [Option.map_some', Option.some.injEq, Prod.mk.injEq] at h
    exact ⟨b2, rfl, h.1.symm, h.2.symm⟩

theorem instanceIds_set_targetElement (b : ComponentBlock) (x : Option DomNode) :
    ComponentBlock.instanceIds { b with _targetElement := x } = b.instanceIds := rfl

theorem instanceIds_mem (b : ComponentBlock) (x : String) (hx : x ∈ b.instanceIds) :
    ∃ y, x = y ++ b.prefixStr := by
  unfold ComponentBlock.instanceIds ComponentBlock.initRootElementIds
    ComponentBlock.initVariableIds at hx
  rcases List.mem_append.mp hx with hx | hx
  · rcases List.mem_map.mp hx with ⟨j, -, hj⟩
    exact ⟨natStr j, hj.symm⟩
  · rcases List.mem_map.mp hx with ⟨v, -, hv⟩
    exact ⟨v, hv.symm⟩

theorem calculateObjectID_flat (b b' : ComponentBlock) (doc : List String)
    (h : b.calculateObjectID doc = some b')
    (hflat : flattenObjectId b.currentElementId = b.currentElementId) :
    flattenObjectId b'.currentElementId = b'.currentElementId := by
  rcases (calculateObjectID_some b b' doc h).2.2.2.2.2.2.2.2.2 with heq | ⟨j, heq⟩
  · rw [heq, hflat]
  · rw [heq, flattenObjectId_append, hflat, flattenObjectId_natStr]

theorem appendTo_guard_eq (b : ComponentBlock) (doc : List String) (n : DomNode)
    (o : String) (hb : b.bTemplate = true) (hn : n.nodeType = elementNodeType) :
    b.appendTo doc (some n) o =
      (ComponentBlock.calculateObjectID
          { b with currentElementId := flattenObjectId o } doc).map
        (fun b2 => ({ b2 with _targetElement := some n }, doc ++ b2.instanceIds)) := by
  simp only [ComponentBlock.appendTo]
  rw [if_pos ⟨hb, hn⟩]

theorem searchFreeId_step (b : ComponentBlock) (doc : List String) (cI : String)
    (fuel i : Nat) :
    b.searchFreeId doc cI (fuel + 1) i =
      if b.findTest doc (cI ++ natStr i) then b.searchFreeId doc cI fuel (i + 1)
      else some (cI ++ natStr i) := rfl

theorem getLast_append_str (y p : String) (c : Char) (hp : p.data.getLast? = some c) :
    (y ++ p).data.getLast? = some c := by
  rw [String.data_append, List.getLast?_append, hp]
  rfl

theorem prefixFor_getLast (b : ComponentBlock) (hb : b.bTemplate = true) (x : String)
    (c : Char) (hx : x.data.getLast? = some c) :
    (b.prefixFor x).data.getLast? = some c := by
  simp only [ComponentBlock.prefixFor, hb, if_true]
  exact getLast_append_str _ x c hx

/-! ### The claims -/

/-- Claim C6: the identifier sanitizer `flattenObjectId` is a total Lean
function (hence deterministic and never failing); it is idempotent, it maps
the empty string to the empty string, and its result is exactly the input
with the characters of the fixed denylist `flattenForbiddenChar` removed. -/
theorem c6_sanitizer_idempotent_exact :
    (∀ s : String, flattenObjectId (flattenObjectId s) = flattenObjectId s) ∧
    flattenObjectId "" = "" ∧
    (∀ s : String,
      (flattenObjectId s).data = s.data.filter (fun c => !flattenForbiddenChar c)) :=
  ⟨flattenObjectId_idem, rfl, flattenObjectId_data⟩

/-- Claim C10: when a block declares no variable names, or when the probed
object id is empty, `find` reports a falsy result and leaves the whole
block state — in particular `currentElementId` — unchanged, regardless of
which element ids are live in the document. -/
theorem c10_find_falsy_no_vars_or_empty (b : ComponentBlock) (doc : List String)
    (o : String) (h : b.varNames = [] ∨ o = "") :
    b.find doc o = (false, b) := by
  unfold ComponentBlock.find
  rw [if_neg]
  rintro ⟨h1, h2⟩
  rcases h with h | h
  · exact h2 h
  · exact h1 h

/-- Witness for C10: a template block without variables misses even though a
matching live element id (`v_n_7`, as an instance of definition `n` with
object id `7` would carry) is present in the document. -/
theorem c10_witness :
    (ComponentBlock.mk "n" true "" "t" [] 1 none none).varNames = [] ∧
    ComponentBlock.find (ComponentBlock.mk "n" true "" "t" [] 1 none none)
        ["v_n_7"] "7" =
      (false, ComponentBlock.mk "n" true "" "t" [] 1 none none) :=
  ⟨rfl, c10_find_falsy_no_vars_or_empty _ ["v_n_7"] "7" (Or.inl rfl)⟩

/-- Claim C5: for a component (non-template) block, `attach` and `appendTo`
are silent no-ops for every argument: the block state (including
`currentElementId` and the target element) and the document are returned
unchanged; likewise `appendTo` is a no-op for every block when the node is
absent or not an element node. -/
theorem c5_component_mutators_noop (b : ComponentBlock) (doc : List String)
    (tn : Option DomNode) (o : String) :
    (b.bTemplate = false →
      b.attach doc tn o = some (b, doc) ∧
      ∀ node : Option DomNode, b.appendTo doc node o = some (b, doc)) ∧
    b.appendTo doc none o = some (b, doc) ∧
    (∀ n : DomNode, n.nodeType ≠ elementNodeType →
      b.appendTo doc (some n) o = some (b, doc)) := by
  refine ⟨fun hb => ⟨?_, fun node => ?_⟩, rfl, fun n hn => ?_⟩
  · unfold ComponentBlock.attach
    rw [if_neg (by rw [hb]; exact Bool.false_ne_true)]
  · cases node with
    | none => rfl
    | some n =>
      simp only [ComponentBlock.appendTo]
      rw [if_neg]
      rintro ⟨h1, -⟩
      rw [hb] at h1
      exact Bool.false_ne_true h1
  · simp only [ComponentBlock.appendTo]
    rw [if_neg]
    rintro ⟨-, h2⟩
    exact hn h2

/-- Witness for C5: a concrete component block is left untouched by `attach`
and `appendTo`. -/
theorem c5_witness :
    (ComponentBlock.mk "c" false "" "t" ["v"] 1 none none).bTemplate = false ∧
    ComponentBlock.attach (ComponentBlock.mk "c" false "" "t" ["v"] 1 none none)
        ["x"] (some ⟨1, 9⟩) "o" =
      some (ComponentBlock.mk "c" false "" "t" ["v"] 1 none none, ["x"]) ∧
    ComponentBlock.appendTo (ComponentBlock.mk "c" false "" "t" ["v"] 1 none none)
        ["x"] (some ⟨1, 9⟩) "o" =
      some (ComponentBlock.mk "c" false "" "t" ["v"] 1 none none, ["x"]) :=
  ⟨rfl,
    ((c5_component_mutators_noop _ ["x"] (some ⟨1, 9⟩) "o").1 rfl).1,
    ((c5_component_mutators_noop _ ["x"] (some ⟨1, 9⟩) "o").1 rfl).2 (some ⟨1, 9⟩)⟩

/-- Claim C2: a failing `find` leaves the block (hence `currentObjectId`)
exactly as before; a succeeding `find` leaves `currentObjectId` set to the
sanitized probe; and repeating `find` with the same argument returns the
same result and changes nothing further (so two successive successful calls
both report true and the second leaves the state unchanged). -/
theorem c2_find_read_stability (b : ComponentBlock) (doc : List String) (o : String) :
    ((b.find doc o).1 = false → (b.find doc o).2 = b) ∧
    ((b.find doc o).1 = true →
      (b.find doc o).2.currentElementId = flattenObjectId o) ∧
    (b.find doc o).2.find doc o = b.find doc o := by
  rcases find_cases b doc o with h | ⟨h, ho, hv, hany⟩
  · rw [h]
    exact ⟨fun _ => rfl, fun ht => absurd ht (by simp), h⟩
  · rw [h]
    refine ⟨fun hf => absurd hf (by simp), fun _ => rfl, ?_⟩
    show ComponentBlock.find { b with currentElementId := flattenObjectId o } doc o = _
    unfold ComponentBlock.find
    dsimp only
    rw [if_pos ⟨ho, hv⟩, if_pos hany]

/-- Witness for C2: a successful probe (`7` against a live `v_n_7`) sets the
sanitized id and a repeated probe is stable. -/
theorem c2_witness :
    (ComponentBlock.find (ComponentBlock.mk "n" true "" "t" ["v"] 0 none none)
        ["v_n_7"] "7").1 = true ∧
    (ComponentBlock.find (ComponentBlock.mk "n" true "" "t" ["v"] 0 none none)
        ["v_n_7"] "7").2.currentElementId = flattenObjectId "7" ∧
    (ComponentBlock.find (ComponentBlock.mk "n" true "" "t" ["v"] 0 none none)
          ["v_n_7"] "7").2.find ["v_n_7"] "7" =
      ComponentBlock.find (ComponentBlock.mk "n" true "" "t" ["v"] 0 none none)
        ["v_n_7"] "7" :=
  ⟨by decide,
    (c2_find_read_stability (ComponentBlock.mk "n" true "" "t" ["v"] 0 none none)
        ["v_n_7"] "7").2.1 (by decide),
    (c2_find_read_stability (ComponentBlock.mk "n" true "" "t" ["v"] 0 none none)
        ["v_n_7"] "7").2.2⟩

/-- Claim C7: with both boolean classes configured, `which()` is true
exactly when every class name in the configured true-class string is
present on the resolved element, or not every class name in the configured
false-class string is present; with no boolean-class configuration,
`which()` yields a falsy result (without touching the element). -/
theorem c7_which_boolean_policy (v : ComponentVar) (cls : List String) :
    (∀ t f : String, v.boolClass = some ⟨some t, some f⟩ →
      (v.which cls = true ↔
        (∀ c ∈ t.splitOn " ", c ∈ cls) ∨ ¬(∀ c ∈ f.splitOn " ", c ∈ cls))) ∧
    (v.boolClass = none → v.which cls = false) := by
  constructor
  · intro t f hbc
    simp only [ComponentVar.which, hbc]
    simp [ComponentVar.hasClass, List.all_eq_true, Decidable.not_forall]
  · intro hbc
    simp only [ComponentVar.which, hbc]

/-- Witness for C7: with `trueclass = "on"` and `falseclass = "off"`, an
element carrying only class `on` makes `which()` true. -/
theorem c7_witness :
    (ComponentVar.mk "x" (some ⟨some "on", some "off"⟩)).boolClass =
      some ⟨some "on", some "off"⟩ ∧
    ((ComponentVar.mk "x" (some ⟨some "on", some "off"⟩)).which ["on"] = true ↔
      (∀ c ∈ ("on".splitOn " "), c ∈ ["on"]) ∨
      ¬(∀ c ∈ ("off".splitOn " "), c ∈ ["on"])) :=
  ⟨rfl,
    (c7_which_boolean_policy (ComponentVar.mk "x" (some ⟨some "on", some "off"⟩))
        ["on"]).1 "on" "off" rfl⟩

/-- Claim C9 (amended statement is the claim itself, which holds): the
factory indexes a declared id with whitespace, underscores and hyphens
removed, while the block's name (`prefixid`, the string used in the
generated-id suffix `_<prefixid>_<objectId>`) keeps underscores; hence for
every declared id containing an underscore the index key differs from the
block name. -/
theorem c9_index_key_differs_from_name :
    (∀ t : TagDesc, (ComponentBlock.ofTag t).prefixid = blockIdName t.id) ∧
    (∀ s : String, '_' ∈ s.data → factoryIdKey s ≠ blockIdName s) ∧
    (∀ (b : ComponentBlock) (cur : String), b.bTemplate = true →
      b.prefixFor cur = "_" ++ b.prefixid ++ "_" ++ cur) := by
  refine ⟨fun t => rfl, ?_, fun b cur hb => by simp [ComponentBlock.prefixFor, hb]⟩
  intro s hu heq
  have h1 : '_' ∈ (blockIdName s).data := by
    rw [blockIdName]
    exact List.mem_filter.mpr ⟨hu, by decide⟩
  have h2 : '_' ∉ (factoryIdKey s).data := by
    rw [factoryIdKey]
    intro hmem
    exact absurd (List.mem_filter.mp hmem).2 (by decide)
  rw [heq] at h2
  exact h2 h1

/-- Witness for C9: the declared id `a_b` is indexed under `ab` but names
its block `a_b`. -/
theorem c9_witness : factoryIdKey "a_b" ≠ blockIdName "a_b" :=
  c9_index_key_differs_from_name.2.1 "a_b" (by decide)

/-- Claim C8 (amended): `getTargetTemplate` considers exactly the indexed
blocks whose `targetid` equals the argument; it returns the single matching
block itself when exactly one matches, the mapping — keyed by the factory's
index key, not by the block's own name — when two or more match, and the
not-found signal when none match. -/
theorem c8_get_target_template (f : TemplateFactory) (t : String) :
    (f.getTargetTemplate t = GetTargetResult.notFound ↔
      ∀ kv ∈ f.templates, kv.2.targetid ≠ t) ∧
    (∀ b : ComponentBlock, f.getTargetTemplate t = GetTargetResult.one b →
      b.targetid = t ∧ ∃ k, (k, b) ∈ f.templates ∧
        f.templates.filter (fun kv => kv.2.targetid = t) = [(k, b)]) ∧
    (∀ m, f.getTargetTemplate t = GetTargetResult.many m →
      m = f.templates.filter (fun kv => kv.2.targetid = t) ∧ 2 ≤ m.length ∧
      ∀ kv ∈ m, kv ∈ f.templates ∧ kv.2.targetid = t) := by
  unfold TemplateFactory.getTargetTemplate
  cases hfil : f.templates.filter (fun kv => kv.2.targetid = t) with
  | nil =>
    refine ⟨⟨fun _ => ?_, fun _ => rfl⟩, ?_, ?_⟩
    · intro kv hkv hkvt
      have hmem : kv ∈ f.templates.filter (fun kv => kv.2.targetid = t) :=
        List.mem_filter.mpr ⟨hkv, by simp [hkvt]⟩
      rw [hfil] at hmem
      cases hmem
    · intro b hcontra
      simp at hcontra
    · intro m hcontra
      simp at hcontra
  | cons kv rest =>
    have hkvmem : kv ∈ f.templates.filter (fun kv => kv.2.targetid = t) := by
      rw [hfil]; exact List.mem_cons_self _ _
    have hkv := List.mem_filter.mp hkvmem
    cases rest with
    | nil =>
      refine ⟨⟨fun hcontra => ?_, fun hall => ?_⟩, ?_, ?_⟩
      · simp at hcontra
      · exact absurd (by simpa using hkv.2) (hall kv hkv.1)
      · intro b hone
        have h' : GetTargetResult.one kv.2 = GetTargetResult.one b := hone
        injection h' with hb
        subst hb
        exact ⟨by simpa using hkv.2, kv.1, hkv.1, rfl⟩
      · intro m hcontra
        simp at hcontra
    | cons kv' rest' =>
      refine ⟨⟨fun hcontra => ?_, fun hall => ?_⟩, ?_, ?_⟩
      · simp at hcontra
      · exact absurd (by simpa using hkv.2) (hall kv hkv.1)
      · intro b hcontra
        simp at hcontra
      · intro m hmany
        have h' : GetTargetResult.many (kv :: kv' :: rest') = GetTargetResult.many m := hmany
        injection h' with hm
        subst hm
        refine ⟨rfl, by simp, ?_⟩
        intro kv2 hkv2
        have hmem2 : kv2 ∈ f.templates.filter (fun kv => kv.2.targetid = t) := by
          rw [hfil]; exact hkv2
        have h2 := List.mem_filter.mp hmem2
        exact ⟨h2.1, by simpa using h2.2⟩

/-- Counterexample for C8 as stated: two template tags targeting container
`x`, one declared as `my_t`; the returned mapping is keyed `myt` (the
factory index key) while the block's name is `my_t`, so the mapping is not
from block name to block. -/
theorem c8_counterexample :
    (TemplateFactory.ofTags
        [⟨"my_t", "template", "x", ⟨1, 1⟩, ["v"], 0⟩,
         ⟨"other", "template", "x", ⟨1, 2⟩, ["w"], 0⟩]).getTargetTemplate "x" =
      GetTargetResult.many
        [("myt", ComponentBlock.ofTag ⟨"my_t", "template", "x", ⟨1, 1⟩, ["v"], 0⟩),
         ("other", ComponentBlock.ofTag ⟨"other", "template", "x", ⟨1, 2⟩, ["w"], 0⟩)] ∧
    (ComponentBlock.ofTag ⟨"my_t", "template", "x", ⟨1, 1⟩, ["v"], 0⟩).prefixid = "my_t" ∧
    ¬(∀ kv ∈
        [("myt", ComponentBlock.ofTag ⟨"my_t", "template", "x", ⟨1, 1⟩, ["v"], 0⟩),
         ("other", ComponentBlock.ofTag ⟨"other", "template", "x", ⟨1, 2⟩, ["w"], 0⟩)],
        kv.1 = kv.2.prefixid) := by
  decide

/-- Witness for C8: a factory with a single block targeting `x` returns
that block directly. -/
theorem c8_witness :
    (ComponentBlock.ofTag ⟨"solo", "template", "x", ⟨1, 3⟩, ["v"], 0⟩).targetid = "x" ∧
    ∃ k, (k, ComponentBlock.ofTag ⟨"solo", "template", "x", ⟨1, 3⟩, ["v"], 0⟩) ∈
        (TemplateFactory.mk
          [("solo", ComponentBlock.ofTag ⟨"solo", "template", "x", ⟨1, 3⟩, ["v"], 0⟩)]).templates ∧
      (TemplateFactory.mk
          [("solo", ComponentBlock.ofTag ⟨"solo", "template", "x", ⟨1, 3⟩, ["v"], 0⟩)]).templates.filter
          (fun kv => kv.2.targetid = "x") =
        [(k, ComponentBlock.ofTag ⟨"solo", "template", "x", ⟨1, 3⟩, ["v"], 0⟩)] :=
  (c8_get_target_template
      (TemplateFactory.mk
        [("solo", ComponentBlock.ofTag ⟨"solo", "template", "x", ⟨1, 3⟩, ["v"], 0⟩)])
      "x").2.1
    (ComponentBlock.ofTag ⟨"solo", "template", "x", ⟨1, 3⟩, ["v"], 0⟩) (by decide)

/-- Block used by the C4 record: a template with one variable and no
declared target container. -/
def c4Block : ComponentBlock := ⟨"n", true, "", "t", ["v"], 0, none, none⟩

/-- The node passed to `appendTo` in the C4 record. -/
def c4Node : DomNode := ⟨1, 7⟩

/-- The block state after `appendTo` in the C4 record. -/
def c4BlockAfter : ComponentBlock := ⟨"n", true, "a", "t", ["v"], 0, none, some c4Node⟩

/-- Counterexample for C4 as stated: a successful `appendTo` does not make
the `target` accessor return the appended-to node — the write goes to the
distinct `_targetElement` property, and `target` still returns the old
(here absent) target element. -/
theorem c4_counterexample :
    ComponentBlock.appendTo c4Block [] (some c4Node) "a" =
      some (c4BlockAfter, ["v_n_a"]) ∧
    c4BlockAfter.target ≠ some c4Node := by
  decide

/-- Claim C4 (amended): a successful `appendTo(node, objectId)` on a
template records `node` in the plain `_targetElement` property, while the
`target` accessor is unchanged (it still returns the previous target
element). -/
theorem c4_appendto_writes_underscore_target (b b' : ComponentBlock)
    (doc doc' : List String) (n : DomNode) (o : String)
    (hb : b.bTemplate = true) (hn : n.nodeType = elementNodeType)
    (h : b.appendTo doc (some n) o = some (b', doc')) :
    b'._targetElement = some n ∧ b'.target = b.target := by
  obtain ⟨b2, hc, hb', hd'⟩ := appendTo_some_guard b b' doc doc' n o hb hn h
  obtain ⟨-, -, -, -, -, hTE, -, -, -, -⟩ := calculateObjectID_some _ b2 doc hc
  subst hb'
  exact ⟨rfl, by simpa [ComponentBlock.target] using hTE⟩

/-- Witness for C4: the concrete run of the counterexample block, through
the amended theorem. -/
theorem c4_witness :
    c4BlockAfter._targetElement = some c4Node ∧ c4BlockAfter.target = c4Block.target :=
  c4_appendto_writes_underscore_target c4Block c4BlockAfter [] ["v_n_a"] c4Node "a"
    rfl rfl (by decide)

/-- Claim C1 (amended): for a template block that declares at least one
variable, instantiating it twice (with object ids that differ after
sanitization) yields two disjoint sets of generated element ids — the
uniqueness resolution of `calculateObjectID` guarantees that the adopted
suffix of the second instance matches no id already in the document. -/
theorem c1_instances_disjoint (b b1 b2 : ComponentBlock)
    (doc doc1 doc2 : List String) (n : DomNode) (o1 o2 : String)
    (hb : b.bTemplate = true) (hv : b.varNames ≠ [])
    (hn : n.nodeType = elementNodeType)
    (_hne : flattenObjectId o1 ≠ flattenObjectId o2)
    (h1 : b.appendTo doc (some n) o1 = some (b1, doc1))
    (h2 : b1.appendTo doc1 (some n) o2 = some (b2, doc2)) :
    ∀ x ∈ b1.instanceIds, x ∉ b2.instanceIds := by
  obtain ⟨c1, hcalc1, hb1, hdoc1⟩ := appendTo_some_guard b b1 doc doc1 n o1 hb hn h1
  have hP1 := calculateObjectID_some _ c1 doc hcalc1
  have hb1T : b1.bTemplate = true := by
    rw [hb1]
    show c1.bTemplate = true
    rw [hP1.2.1]
    exact hb
  obtain ⟨c2, hcalc2, hb2, hdoc2⟩ := appendTo_some_guard b1 b2 doc1 doc2 n o2 hb1T hn h2
  have hP2 := calculateObjectID_some _ c2 doc1 hcalc2
  intro x hx1 hx2
  have hx1' : x ∈ c1.instanceIds := by
    rw [hb1, instanceIds_set_targetElement] at hx1
    exact hx1
  have hxdoc1 : x ∈ doc1 := by
    rw [hdoc1]
    exact List.mem_append.mpr (Or.inr hx1')
  have hx2' : x ∈ c2.instanceIds := by
    rw [hb2, instanceIds_set_targetElement] at hx2
    exact hx2
  obtain ⟨y, hy⟩ := instanceIds_mem c2 x hx2'
  have hcur2 : flattenObjectId c2.currentElementId = c2.currentElementId :=
    calculateObjectID_flat _ c2 doc1 hcalc2 (by
      show flattenObjectId (flattenObjectId o2) = flattenObjectId o2
      exact flattenObjectId_idem o2)
  have hff : ComponentBlock.findTest { b1 with currentElementId := flattenObjectId o2 }
      doc1 c2.currentElementId = false := hP2.2.2.2.2.2.2.2.2.1
  have hcne : c2.currentElementId ≠ "" := hP2.2.2.2.2.2.2.2.1
  have hvar2 : ({ b1 with currentElementId := flattenObjectId o2 } :
      ComponentBlock).varNames ≠ [] := by
    show b1.varNames ≠ []
    rw [hb1]
    show c1.varNames ≠ []
    rw [hP1.2.2.1]
    exact hv
  have hall := findTest_false_not_endsWith _ doc1 _ hff hcne hvar2
  rw [hcur2] at hall
  have hpre : ComponentBlock.prefixFor { b1 with currentElementId := flattenObjectId o2 }
      c2.currentElementId = c2.prefixStr := by
    unfold ComponentBlock.prefixStr ComponentBlock.prefixFor
    rw [hP2.1, hP2.2.1]
  rw [hpre] at hall
  have hxend : strEndsWith c2.prefixStr x = true := by
    rw [hy]
    exact strEndsWith_append _ y
  rw [hall x hxdoc1] at hxend
  cases hxend

/-- Template with one variable used in the C1 witness. -/
def c1WitBlock : ComponentBlock := ⟨"n", true, "", "t", ["v"], 0, none, none⟩

/-- Node used in the C1 witness. -/
def c1WitNode : DomNode := ⟨1, 6⟩

/-- C1 witness state after instantiating with `a`. -/
def c1WitB1 : ComponentBlock := ⟨"n", true, "a", "t", ["v"], 0, none, some c1WitNode⟩

/-- C1 witness state after instantiating with `b`. -/
def c1WitB2 : ComponentBlock := ⟨"n", true, "b", "t", ["v"], 0, none, some c1WitNode⟩

/-- Witness for C1: two concrete instantiations (`a`, then `b`) of a
one-variable template produce disjoint generated-id sets. -/
theorem c1_witness :
    flattenObjectId "a" ≠ flattenObjectId "b" ∧
    ∀ x ∈ c1WitB1.instanceIds, x ∉ c1WitB2.instanceIds :=
  ⟨by decide,
    c1_instances_disjoint c1WitBlock c1WitB1 c1WitB2 [] ["v_n_a"] ["v_n_a", "v_n_b"]
      c1WitNode "a" "b" rfl (by decide) rfl (by decide) (by decide) (by decide)⟩

/-- Variable-less template used by the C1 counterexample. -/
def c1CexBlock : ComponentBlock := ⟨"n", true, "", "t", [], 1, none, none⟩

/-- Node used by the C1 counterexample. -/
def c1CexNode : DomNode := ⟨1, 5⟩

/-- The state both C1 counterexample instantiations end in. -/
def c1CexAfter : ComponentBlock := ⟨"n", true, "0", "t", [], 1, none, some c1CexNode⟩

/-- Counterexample for C1 as stated: with no declared variables, `find`
always misses, so instantiating with `0` and then with `-` (which
sanitizes to the empty string and then auto-adopts `0` again) produces the
same generated element id `0_n_0` twice — the id sets are not disjoint,
although the two object ids differ after sanitization. -/
theorem c1_counterexample :
    flattenObjectId "0" ≠ flattenObjectId "-" ∧
    ComponentBlock.appendTo c1CexBlock [] (some c1CexNode) "0" =
      some (c1CexAfter, ["0_n_0"]) ∧
    ComponentBlock.appendTo c1CexAfter ["0_n_0"] (some c1CexNode) "-" =
      some (c1CexAfter, ["0_n_0", "0_n_0"]) ∧
    ¬(∀ x ∈ c1CexAfter.instanceIds, x ∉ c1CexAfter.instanceIds) := by
  decide

theorem calculateObjectID_first_free (b b' : ComponentBlock) (doc : List String)
    (h : b.calculateObjectID doc = some b')
    (hcond : b.currentElementId = "" ∨ b.findTest doc b.currentElementId = true) :
    ∃ i, b'.currentElementId = b.currentElementId ++ natStr i ∧
      b.findTest doc (b.currentElementId ++ natStr i) = false ∧
      ∀ j, j < i → b.findTest doc (b.currentElementId ++ natStr j) = true := by
  unfold ComponentBlock.calculateObjectID at h
  rw [if_pos hcond] at h
  cases hsearch : b.searchFreeId doc b.currentElementId (doc.length + 1) 0 with
  | none => rw [hsearch] at h; exact Option.noConfusion h
  | some s =>
    rw [hsearch] at h
    simp only [Option.some.injEq] at h
    subst h
    obtain ⟨hfind, j, -, hs, hall⟩ := searchFreeId_some b doc b.currentElementId _ _ _ hsearch
    subst hs
    exact ⟨j, rfl, hfind, fun k hk => hall k (Nat.zero_le k) hk⟩

/-- Claim C3 (amended): the general rule holds for every block — whenever
`calculateObjectID` runs with an empty current id or one that `find`
reports as in use, the adopted id is the requested id extended with the
first integer for which `find` reports no existing instance.  The concrete
`"0"`-then-`"1"` auto-assignment additionally needs the block to declare at
least one variable (otherwise `find` never reports an instance and both
instantiations adopt `"0"`) and a document initially free of matching
suffixes. -/
theorem c3_auto_id_counter :
    (∀ (b b' : ComponentBlock) (doc : List String),
      b.calculateObjectID doc = some b' →
      b.currentElementId = "" ∨ b.findTest doc b.currentElementId = true →
      ∃ i, b'.currentElementId = b.currentElementId ++ natStr i ∧
        b.findTest doc (b.currentElementId ++ natStr i) = false ∧
        ∀ j, j < i → b.findTest doc (b.currentElementId ++ natStr j) = true) ∧
    (∀ (b : ComponentBlock) (doc : List String) (n : DomNode),
      b.bTemplate = true → b.varNames ≠ [] → n.nodeType = elementNodeType →
      (∀ s ∈ doc, strEndsWith (b.prefixFor "0") s = false ∧
        strEndsWith (b.prefixFor "1") s = false) →
      ∃ b1 doc1 b2 doc2,
        b.appendTo doc (some n) "" = some (b1, doc1) ∧
        b1.currentElementId = "0" ∧
        b1.appendTo doc1 (some n) "" = some (b2, doc2) ∧
        b2.currentElementId = "1") := by
  constructor
  · exact calculateObjectID_first_free
  · intro b doc n hb hv hn hdoc
    have h0 : flattenObjectId "" = ("" : String) := by decide
    have hf0 : flattenObjectId "0" = ("0" : String) := by decide
    have hf1 : flattenObjectId "1" = ("1" : String) := by decide
    have e0 : ("" : String) ++ natStr 0 = "0" := by decide
    have e1 : ("" : String) ++ natStr 1 = "1" := by decide
    obtain ⟨v, vs, hbv⟩ : ∃ v vs, b.varNames = v :: vs := by
      cases hbvv : b.varNames with
      | nil => exact absurd hbvv hv
      | cons v vs => exact ⟨v, vs, rfl⟩
    -- first instantiation: adopt "0"
    have hft0 : ComponentBlock.findTest { b with currentElementId := "" } doc "0" = false := by
      cases hcase : ComponentBlock.findTest { b with currentElementId := "" } doc "0" with
      | false => rfl
      | true =>
        obtain ⟨-, -, s, hs, hend⟩ := (findTest_eq_true_iff _ doc "0").mp hcase
        have hpf : ComponentBlock.prefixFor { b with currentElementId := "" }
            (flattenObjectId "0") = b.prefixFor "0" := by rw [hf0]; rfl
        rw [hpf, (hdoc s hs).1] at hend
        cases hend
    have hcalc1 : ComponentBlock.calculateObjectID
        { b with currentElementId := flattenObjectId "" } doc =
        some { b with currentElementId := "0" } := by
      unfold ComponentBlock.calculateObjectID
      dsimp only
      rw [h0]
      rw [if_pos (Or.inl rfl)]
      rw [searchFreeId_step, e0, hft0]
      simp
    have happ1 : b.appendTo doc (some n) "" =
        some ({ b with currentElementId := "0", _targetElement := some n },
          doc ++ ComponentBlock.instanceIds { b with currentElementId := "0" }) := by
      rw [appendTo_guard_eq b doc n "" hb hn, hcalc1]
      rfl
    -- second instantiation: "0" is now in use, adopt "1"
    have hvm : v ∈ ({ b with currentElementId := "0" } : ComponentBlock).varNames := by
      show v ∈ b.varNames
      rw [hbv]
      exact List.mem_cons_self v vs
    have hft0' : ComponentBlock.findTest
        { b with currentElementId := "", _targetElement := some n }
        (doc ++ ComponentBlock.instanceIds { b with currentElementId := "0" }) "0" = true := by
      apply (findTest_eq_true_iff _ _ _).mpr
      refine ⟨by decide, ?_, ?_⟩
      · show b.varNames ≠ []
        exact hv
      · refine ⟨v ++ ComponentBlock.prefixStr { b with currentElementId := "0" }, ?_, ?_⟩
        · apply List.mem_append.mpr
          right
          unfold ComponentBlock.instanceIds
          apply List.mem_append.mpr
          right
          unfold ComponentBlock.initVariableIds
          exact List.mem_map.mpr ⟨v, hvm, rfl⟩
        · have hpf : ComponentBlock.prefixFor
              { b with currentElementId := "", _targetElement := some n }
              (flattenObjectId "0") =
              ComponentBlock.prefixStr { b with currentElementId := "0" } := by
            rw [hf0]; rfl
          rw [hpf]
          exact strEndsWith_append _ v
    have hft1' : ComponentBlock.findTest
        { b with currentElementId := "", _targetElement := some n }
        (doc ++ ComponentBlock.instanceIds { b with currentElementId := "0" }) "1" = false := by
      cases hcase : ComponentBlock.findTest
          { b with currentElementId := "", _targetElement := some n }
          (doc ++ ComponentBlock.instanceIds { b with currentElementId := "0" }) "1" with
      | false => rfl
      | true =>
        obtain ⟨-, -, s, hs, hend⟩ := (findTest_eq_true_iff _ _ "1").mp hcase
        have hpf : ComponentBlock.prefixFor
            { b with currentElementId := "", _targetElement := some n }
            (flattenObjectId "1") = b.prefixFor "1" := by rw [hf1]; rfl
        rw [hpf] at hend
        rcases List.mem_append.mp hs with hsd | hsi
        · rw [(hdoc s hsd).2] at hend
          cases hend
        · obtain ⟨y, hy⟩ := instanceIds_mem _ s hsi
          have hps : ComponentBlock.prefixStr { b with currentElementId := "0" } =
              b.prefixFor "0" := rfl
          rw [hy, hps] at hend
          have h1l : (b.prefixFor "1").data.getLast? = some '1' :=
            prefixFor_getLast b hb "1" '1' (by decide)
          have h0l : (y ++ b.prefixFor "0").data.getLast? = some '0' :=
            getLast_append_str y _ '0' (prefixFor_getLast b hb "0" '0' (by decide))
          rw [strEndsWith_last_ne _ _ '1' '0' (by decide) h1l h0l] at hend
          cases hend
    have hlen : ∃ m, (doc ++ ComponentBlock.instanceIds
        { b with currentElementId := "0" }).length = m + 1 := by
      refine ⟨(doc ++ ComponentBlock.instanceIds
        { b with currentElementId := "0" }).length - 1, ?_⟩
      have : 0 < (ComponentBlock.instanceIds { b with currentElementId := "0" }).length := by
        unfold ComponentBlock.instanceIds ComponentBlock.initVariableIds
        rw [List.length_append, List.length_map]
        show 0 < _ + b.varNames.length
        rw [hbv]
        simp
      rw [List.length_append]
      omega
    obtain ⟨m, hm⟩ := hlen
    have hcalc2 : ComponentBlock.calculateObjectID
        { b with currentElementId := flattenObjectId "", _targetElement := some n }
        (doc ++ ComponentBlock.instanceIds { b with currentElementId := "0" }) =
        some { b with currentElementId := "1", _targetElement := some n } := by
      unfold ComponentBlock.calculateObjectID
      dsimp only
      rw [h0]
      rw [if_pos (Or.inl rfl)]
      rw [hm]
      rw [searchFreeId_step, e0, hft0']
      rw [if_pos rfl]
      rw [searchFreeId_step, e1, hft1']
      simp
    have hb1T : ({ b with currentElementId := "0", _targetElement := some n } :
        ComponentBlock).bTemplate = true := hb
    have happ2 : ComponentBlock.appendTo
        { b with currentElementId := "0", _targetElement := some n }
        (doc ++ ComponentBlock.instanceIds { b with currentElementId := "0" })
        (some n) "" =
        some ({ b with currentElementId := "1", _targetElement := some n },
          (doc ++ ComponentBlock.instanceIds { b with currentElementId := "0" }) ++
            ComponentBlock.instanceIds
              { b with currentElementId := "1", _targetElement := some n }) := by
      rw [appendTo_guard_eq _ _ n "" hb1T hn]
      dsimp only
      rw [hcalc2]
      rfl
    exact ⟨{ b with currentElementId := "0", _targetElement := some n },
      doc ++ ComponentBlock.instanceIds { b with currentElementId := "0" },
      { b with currentElementId := "1", _targetElement := some n },
      (doc ++ ComponentBlock.instanceIds { b with currentElementId := "0" }) ++
        ComponentBlock.instanceIds
          { b with currentElementId := "1", _targetElement := some n },
      happ1, rfl, happ2, rfl⟩

/-- Template with one variable used in the C3 witness. -/
def c3WitBlock : ComponentBlock := ⟨"n", true, "", "t", ["v"], 0, none, none⟩

/-- Node used in the C3 witness and counterexample. -/
def c3Node : DomNode := ⟨1, 4⟩

/-- Witness for C3: a one-variable template in an empty document adopts
`"0"` and then `"1"`. -/
theorem c3_witness :
    ∃ b1 doc1 b2 doc2,
      ComponentBlock.appendTo c3WitBlock [] (some c3Node) "" = some (b1, doc1) ∧
      b1.currentElementId = "0" ∧
      ComponentBlock.appendTo b1 doc1 (some c3Node) "" = some (b2, doc2) ∧
      b2.currentElementId = "1" :=
  c3_auto_id_counter.2 c3WitBlock [] c3Node rfl (by decide) rfl (by simp)

/-- Variable-less template used by the C3 counterexample. -/
def c3CexBlock : ComponentBlock := ⟨"n", true, "", "t", [], 1, none, none⟩

/-- The state both C3 counterexample instantiations end in. -/
def c3CexAfter : ComponentBlock := ⟨"n", true, "0", "t", [], 1, none, some c3Node⟩

/-- Counterexample for C3 as stated: a template block with no declared
variables auto-assigns `"0"` on the first id-less instantiation but `"0"`
again — not `"1"` — on the second, because `find` cannot see the live
instance. -/
theorem c3_counterexample :
    c3CexBlock.bTemplate = true ∧
    ComponentBlock.appendTo c3CexBlock [] (some c3Node) "" =
      some (c3CexAfter, ["0_n_0"]) ∧
    c3CexAfter.currentElementId = "0" ∧
    ComponentBlock.appendTo c3CexAfter ["0_n_0"] (some c3Node) "" =
      some (c3CexAfter, ["0_n_0", "0_n_0"]) ∧
    c3CexAfter.currentElementId ≠ "1" := by
  decide
